import Mathlib

/-!
Verification of the VirtualTryOn backend (src/app.py, src/agent.py,
src/fabric_client.py) against its natural-language specification.

The Python code is shallowly embedded: pure helpers become Lean functions,
the filesystem becomes an explicit association list from paths to byte
lists, the outbound HTTP transport becomes an explicit stream of responses,
and `uuid.uuid4()` results become explicit parameters.  Machine integers do
not occur (Python integers are unbounded); SHA-256 is implemented in full
over `Nat` with explicit `% 2^32` reductions.
-/

/-! ### SHA-256 (faithful model of Python `hashlib.sha256(...).hexdigest()`) -/

/-- Right rotation of a 32-bit word represented as a `Nat < 2^32`. -/
def rotr32 (n x : Nat) : Nat :=
  ((x >>> n) ||| (x <<< (32 - n))) % 4294967296

/-- The 64 SHA-256 round constants (FIPS 180-4). -/
def shaK : List Nat :=
  [1116352408, 1899447441, 3049323471, 3921009573, 961987163,
   1508970993, 2453635748, 2870763221, 3624381080, 310598401,
   607225278, 1426881987, 1925078388, 2162078206, 2614888103,
   3248222580, 3835390401, 4022224774, 264347078, 604807628,
   770255983, 1249150122, 1555081692, 1996064986, 2554220882,
   2821834349, 2952996808, 3210313671, 3336571891, 3584528711,
   113926993, 338241895, 666307205, 773529912, 1294757372,
   1396182291, 1695183700, 1986661051, 2177026350, 2456956037,
   2730485921, 2820302411, 3259730800, 3345764771, 3516065817,
   3600352804, 4094571909, 275423344, 430227734, 506948616,
   659060556, 883997877, 958139571, 1322822218, 1537002063,
   1747873779, 1955562222, 2024104815, 2227730452, 2361852424,
   2428436474, 2756734187, 3204031479, 3329325298]

/-- The SHA-256 initial hash value (FIPS 180-4). -/
def shaInit : List Nat :=
  [1779033703, 3144134277, 1013904242, 2773480762,
   1359893119, 2600822924, 528734635, 1541459225]

def bigSigma0 (x : Nat) : Nat := (rotr32 2 x) ^^^ (rotr32 13 x) ^^^ (rotr32 22 x)

def bigSigma1 (x : Nat) : Nat := (rotr32 6 x) ^^^ (rotr32 11 x) ^^^ (rotr32 25 x)

def smallSigma0 (x : Nat) : Nat := (rotr32 7 x) ^^^ (rotr32 18 x) ^^^ (x >>> 3)

def smallSigma1 (x : Nat) : Nat := (rotr32 17 x) ^^^ (rotr32 19 x) ^^^ (x >>> 10)

/-- Big-endian byte encoding of `v` on `n` bytes. -/
def beBytes (n v : Nat) : List Nat :=
  (List.range n).map (fun i => (v >>> (8 * (n - 1 - i))) % 256)

/-- SHA-256 message padding: append `0x80`, zeros, and the 64-bit bit length. -/
def shaPad (msg : List Nat) : List Nat :=
  msg ++ 0x80 :: (List.replicate ((64 - (msg.length + 9) % 64) % 64) 0 ++ beBytes 8 (8 * msg.length))

/-- Split a byte list into 64-byte blocks (structural recursion on a fuel
bound so the kernel can evaluate it; `fuel = l.length` always suffices). -/
def chunksAux : Nat → List Nat → List (List Nat)
  | _, [] => []
  | 0, _ => []
  | fuel + 1, l => l.take 64 :: chunksAux fuel (l.drop 64)

/-- Split a byte list into 64-byte blocks. -/
def chunks64 (l : List Nat) : List (List Nat) := chunksAux l.length l

/-- The 16 big-endian 32-bit words of one 64-byte block. -/
def blockWords (b : List Nat) : List Nat :=
  (List.range 16).map (fun i =>
    b.getD (4 * i) 0 * 16777216 + b.getD (4 * i + 1) 0 * 65536 +
    b.getD (4 * i + 2) 0 * 256 + b.getD (4 * i + 3) 0)

/-- Extend the 16 message words to the 64-entry message schedule. -/
def schedule (w16 : List Nat) : List Nat :=
  (List.range 48).foldl (fun w _ =>
    let n := w.length
    w ++ [(smallSigma1 (w.getD (n - 2) 0) + w.getD (n - 7) 0 +
           smallSigma0 (w.getD (n - 15) 0) + w.getD (n - 16) 0) % 4294967296]) w16

/-- One SHA-256 compression step over a 64-byte block. -/
def shaCompress (H : List Nat) (block : List Nat) : List Nat :=
  let w := schedule (blockWords block)
  let final := (List.range 64).foldl
    (fun (st : Nat × Nat × Nat × Nat × Nat × Nat × Nat × Nat) i =>
      let (a, b, c, d, e, f, g, h) := st
      let ch := (e &&& f) ^^^ ((e ^^^ 4294967295) &&& g)
      let maj := (a &&& b) ^^^ (a &&& c) ^^^ (b &&& c)
      let t1 := (h + bigSigma1 e + ch + shaK.getD i 0 + w.getD i 0) % 4294967296
      let t2 := (bigSigma0 a + maj) % 4294967296
      ((t1 + t2) % 4294967296, a, b, c, (d + t1) % 4294967296, e, f, g))
    (H.getD 0 0, H.getD 1 0, H.getD 2 0, H.getD 3 0,
     H.getD 4 0, H.getD 5 0, H.getD 6 0, H.getD 7 0)
  match final with
  | (a, b, c, d, e, f, g, h) =>
    [(H.getD 0 0 + a) % 4294967296, (H.getD 1 0 + b) % 4294967296,
     (H.getD 2 0 + c) % 4294967296, (H.getD 3 0 + d) % 4294967296,
     (H.getD 4 0 + e) % 4294967296, (H.getD 5 0 + f) % 4294967296,
     (H.getD 6 0 + g) % 4294967296, (H.getD 7 0 + h) % 4294967296]

/-- SHA-256 digest (32 bytes) of a byte list. -/
def sha256 (msg : List Nat) : List Nat :=
  ((chunks64 (shaPad msg)).foldl shaCompress shaInit).flatMap (beBytes 4)

/-- Lowercase hex digest of a byte list, as `hashlib.sha256(...).hexdigest()`. -/
def sha256Hex (msg : List Nat) : String :=
  String.mk ((sha256 msg).flatMap (fun b => [Nat.digitChar (b / 16), Nat.digitChar (b % 16)]))

/-- UTF-8 bytes of one character (Python `str.encode()` is UTF-8). -/
def utf8Char (c : Char) : List Nat :=
  let n := c.toNat
  if n < 0x80 then [n]
  else if n < 0x800 then [0xC0 + n / 0x40, 0x80 + n % 0x40]
  else if n < 0x10000 then [0xE0 + n / 0x1000, 0x80 + n / 0x40 % 0x40, 0x80 + n % 0x40]
  else [0xF0 + n / 0x40000, 0x80 + n / 0x1000 % 0x40, 0x80 + n / 0x40 % 0x40, 0x80 + n % 0x40]

/-- UTF-8 encoding of a string, the model of Python `s.encode()`. -/
def utf8Encode (s : String) : List Nat := s.data.flatMap utf8Char

/-! ### The Identity Function (src/app.py, `generate_combination_id`) -/

/-- Code-point lexicographic comparison of character lists, exactly how
Python compares strings (`a <= b`). -/
def charListLe : List Char → List Char → Bool
  | [], _ => true
  | _ :: _, [] => false
  | a :: as, b :: bs =>
    if a.toNat < b.toNat then true
    else if b.toNat < a.toNat then false
    else charListLe as bs

/-- Python string comparison `a <= b` (code-point lexicographic). -/
def pyStrLe (a b : String) : Bool := charListLe a.data b.data

/-- Model of Python `sorted` on strings: a stable comparison sort under the
code-point lexicographic order.  `List.insertionSort` is used because it is
stable, so it agrees extensionally with any stable sort (Python uses
timsort, also stable), and it is structurally recursive, so the kernel can
evaluate it. -/
def pySorted (l : List String) : List String :=
  List.insertionSort (fun a b => pyStrLe a b = true) l

/-- Python slice `s[a:b]` on a string of ASCII characters. -/
def strSlice (s : String) (a b : Nat) : String :=
  String.mk ((s.data.drop a).take (b - a))

/-- Embedding of `generate_combination_id` (src/app.py lines 96-104):
sort the ids, join with "|", SHA-256 hex digest, format the first 32 hex
characters as 8-4-4-4-12. -/
def generate_combination_id (item_ids : List String) : String :=
  let sorted_ids := pySorted item_ids
  let items_string := String.intercalate "|" sorted_ids
  let hash_digest := sha256Hex (utf8Encode items_string)
  strSlice hash_digest 0 8 ++ "-" ++ strSlice hash_digest 8 12 ++ "-" ++
    strSlice hash_digest 12 16 ++ "-" ++ strSlice hash_digest 16 20 ++ "-" ++
    strSlice hash_digest 20 32

/-! ### Filesystem model

The filesystem is an association list from paths to byte contents; the most
recent write shadows older entries.  `os.path.exists` is `fsExists`,
`os.path.join` is `pathJoin`, and `open(p, "wb")` creates/truncates `p`. -/

abbrev Fs := List (String × List Nat)

def fsExists (fs : Fs) (p : String) : Bool := (fs.lookup p).isSome

def fsRead (fs : Fs) (p : String) : Option (List Nat) := fs.lookup p

def fsWrite (fs : Fs) (p : String) (bytes : List Nat) : Fs := (p, bytes) :: fs

def pathJoin (a b : String) : String := a ++ "/" ++ b

/-- `GENERATED_FOLDER` in src/app.py. -/
def GENERATED_FOLDER : String := "./static/generated"

/-- `PRODUCTS_FOLDER` in src/app.py. -/
def PRODUCTS_FOLDER : String := "./static/products"

/-! ### Item records (the Python dicts handled by src/fabric_client.py)

Only the fields the verified code reads are modelled; a `none` field models
a key absent from the dict (`item.get(k, default)` then yields the default). -/

structure Item where
  id : Option String
  name : Option String
  price : Option Nat
  color : Option String
  deriving Repr, DecidableEq

/-- Python `item.get("id", "")`. -/
def itemGetId (item : Item) : String := item.id.getD ""

/-! ### Event Publisher (src/fabric_client.py)

The two Event Hub channels are modelled by two Booleans saying whether the
corresponding transmit succeeds (a missing connection string leaves the
producer as `None` and the transmit raises; any transport failure also
raises).  `uuid.uuid4()` is a parameter. -/

namespace FabricClient

/-- Embedding of `FabricClient._generate_combination_id` (src/fabric_client.py
lines 53-64): sort the items' "id" fields (absent id contributes ""), join
with "|", SHA-256 hex digest, format as 8-4-4-4-12. -/
def generate_combination_id (items : List Item) : String :=
  let sorted_ids := pySorted (items.map (fun item => item.id.getD ""))
  let items_string := String.intercalate "|" sorted_ids
  let hash_digest := sha256Hex (utf8Encode items_string)
  strSlice hash_digest 0 8 ++ "-" ++ strSlice hash_digest 8 12 ++ "-" ++
    strSlice hash_digest 12 16 ++ "-" ++ strSlice hash_digest 16 20 ++ "-" ++
    strSlice hash_digest 20 32

/-- Embedding of `FabricClient.send_combination`: derives the combination id
from the items, transmits one event on the combinations channel, and returns
the id; a transmit failure raises (modelled as `Except.error`). -/
def send_combination (combChannelOk : Bool) (items : List Item) :
    Except String String :=
  let combination_id := generate_combination_id items
  if combChannelOk then .ok combination_id
  else .error "Failed to send combination"

/-- Embedding of `FabricClient.send_order`: generates a fresh `uuid.uuid4()`
order id (the `orderUuid` parameter), transmits one event on the sales
channel, and returns the order id; a transmit failure raises. -/
def send_order (salesChannelOk : Bool) (orderUuid : String) :
    Except String String :=
  let order_id := orderUuid
  if salesChannelOk then .ok order_id
  else .error "Failed to send order"

end FabricClient

/-! ### Image Composition Client (src/agent.py, `generate_outfit_image`) -/

/-- One element of the response `data` array; `b64_json` is absent or a
base64 string. -/
structure RespItem where
  b64_json : Option String
  deriving Repr, DecidableEq

/-- The decoded JSON envelope of one HTTP response. -/
structure ApiResponse where
  status : Nat
  data : List RespItem
  deriving Repr, DecidableEq

/-- Outcome of one `requests.post`: a transport-level failure (connection
error / timeout raised by `requests`) or a response. -/
inductive Transport where
  | failure (msg : String)
  | response (r : ApiResponse)
  deriving Repr, DecidableEq

inductive GenError where
  | noImages
  | missingApiBase
  | transportError (msg : String)
  | httpError (status : Nat)
  | noImageInResponse
  | base64Error
  deriving Repr, DecidableEq

/-- Python `str(e)` for the exceptions `generate_outfit_image` can raise. -/
def GenError.message : GenError → String
  | .noImages => "No images provided"
  | .missingApiBase => "AOAI_API_BASE environment variable is required"
  | .transportError msg => msg
  | .httpError status => "HTTP error " ++ toString status
  | .noImageInResponse => "No image in response"
  | .base64Error => "Invalid base64-encoded string"

/-- Index of a character in the standard base64 alphabet. -/
def b64Index (c : Char) : Option Nat :=
  if 65 ≤ c.toNat ∧ c.toNat ≤ 90 then some (c.toNat - 65)
  else if 97 ≤ c.toNat ∧ c.toNat ≤ 122 then some (c.toNat - 97 + 26)
  else if 48 ≤ c.toNat ∧ c.toNat ≤ 57 then some (c.toNat - 48 + 52)
  else if c = '+' then some 62
  else if c = '/' then some 63
  else none

/-- Decode base64 4-character groups; `=` padding may close only the final
group. -/
def b64Groups : List Char → Option (List Nat)
  | [] => some []
  | c1 :: c2 :: c3 :: c4 :: rest =>
    match b64Index c1, b64Index c2, b64Index c3, b64Index c4 with
    | some a, some b, some c, some d =>
      match b64Groups rest with
      | some tail => some ((a * 4 + b / 16) :: (b % 16 * 16 + c / 4) :: (c % 4 * 64 + d) :: tail)
      | none => none
    | some a, some b, some c, none =>
      if c4 = '=' ∧ rest = [] then some [a * 4 + b / 16, b % 16 * 16 + c / 4] else none
    | some a, some b, none, none =>
      if c3 = '=' ∧ c4 = '=' ∧ rest = [] then some [a * 4 + b / 16] else none
    | _, _, _, _ => none
  | _ => none

/-- Model of Python `base64.b64decode` (`validate=False`): characters outside
the alphabet are discarded, then the length must be a multiple of 4
("Incorrect padding" raises, modelled as `none`). -/
def b64decode (s : String) : Option (List Nat) :=
  let filtered := s.data.filter (fun c => (b64Index c).isSome || c = '=')
  if filtered.length % 4 = 0 then b64Groups filtered else none

/-- Result of one call to the Image Composition Client: the Python return
value or raised exception, the filesystem after the call, and the number of
HTTP attempts performed. -/
structure GenResult where
  result : Except GenError String
  fs : Fs
  attempts : Nat
  deriving Repr

/-- Embedding of `generate_outfit_image` (src/agent.py lines 20-88).

The code performs exactly one `requests.post` (attempt index 0 of the
`transports` stream); `response.raise_for_status()` raises on any status
≥ 400; on the success path the condition
`result.get("data") and result["data"][0].get("b64_json")` guards (empty
`data`, or an absent or empty `b64_json`, raises
`ValueError("No image in response")`); then `open(output_path, "wb")`
creates/truncates the output file BEFORE `base64.b64decode` is evaluated,
so a decode failure leaves an empty file at `output_path`. -/
def generate_outfit_image (image_paths : List String) (apiBase : Option String)
    (transports : Nat → Transport) (output_path : String) (fs : Fs) : GenResult :=
  if image_paths = [] then ⟨.error .noImages, fs, 0⟩
  else
    match apiBase with
    | none => ⟨.error .missingApiBase, fs, 0⟩
    | some _ =>
      match transports 0 with
      | .failure msg => ⟨.error (.transportError msg), fs, 1⟩
      | .response r =>
        if 400 ≤ r.status then ⟨.error (.httpError r.status), fs, 1⟩
        else
          match r.data.head? with
          | none => ⟨.error .noImageInResponse, fs, 1⟩
          | some item =>
            match item.b64_json with
            | none => ⟨.error .noImageInResponse, fs, 1⟩
            | some b64 =>
              if b64 = "" then ⟨.error .noImageInResponse, fs, 1⟩
              else
                let fs1 := fsWrite fs output_path []
                match b64decode b64 with
                | some bytes => ⟨.ok output_path, fsWrite fs1 output_path bytes, 1⟩
                | none => ⟨.error .base64Error, fs1, 1⟩

/-! ### Catalog Index and cache-or-generate flow (src/app.py) -/

/-- Catalog product record; only the fields `generate_look` reads. -/
structure Product where
  id : String
  image : String
  deriving Repr, DecidableEq

/-- The catalog: category id → product list, in dict insertion order. -/
abbrev Catalog := List (String × List Product)

/-- The inner double loop of `generate_look` (src/app.py lines 125-133) for
one `item_id`: in each category, the first product with a matching id is
examined (`break` leaves only the inner loop) and contributes its image path
and record when the image file exists. -/
def resolveItem (catalog : Catalog) (fs : Fs) (item_id : String) :
    List (String × Product) :=
  catalog.filterMap (fun cp =>
    match cp.2.find? (fun product => product.id = item_id) with
    | some product =>
      let img_path := pathJoin (pathJoin PRODUCTS_FOLDER cp.1) product.image
      if fsExists fs img_path then some (img_path, product) else none
    | none => none)

/-- The JSON body (plus HTTP status) returned by `generate_look`. -/
structure LookResponse where
  status : Nat
  success : Option Bool
  image : Option String
  products : List Product
  cached : Option Bool
  combination_id : Option String
  error : Option String
  deriving Repr, DecidableEq

/-- Result of one `generate_look` request: response, filesystem after the
request, and how many times the Image Composition Client was invoked. -/
structure LookResult where
  resp : LookResponse
  fs : Fs
  clientCalls : Nat
  deriving Repr, DecidableEq

/-- The `cached_filename` local of `generate_look`:
`"look_" + combination_id + ".jpeg"`. -/
def lookCachedFilename (selected_items : List String) : String :=
  "look_" ++ generate_combination_id selected_items ++ ".jpeg"

/-- The `cached_path` local of `generate_look`: the artifact path for an
item selection, `os.path.join(GENERATED_FOLDER, cached_filename)`. -/
def cachedPathOf (selected_items : List String) : String :=
  pathJoin GENERATED_FOLDER (lookCachedFilename selected_items)

/-- The `image_paths` / `products_info` locals of `generate_look`: the
resolved contributions of all selected items, in order. -/
def lookResolved (catalog : Catalog) (fs : Fs) (selected_items : List String) :
    List (String × Product) :=
  selected_items.flatMap (resolveItem catalog fs)

/-- Embedding of `generate_look` (src/app.py lines 107-163): reject an empty
selection; derive the combination id and artifact path; resolve every item
against the catalog (this happens BEFORE the cache check); 400 when nothing
resolves; return the cached artifact when it exists; otherwise invoke the
Image Composition Client and report success or the raised error.  The
Python locals (`combination_id`, `cached_path`, `image_paths`,
`products_info`) are computed once in the source; here they appear inline
or via the helper definitions above, which is extensionally identical. -/
def generate_look (catalog : Catalog) (apiBase : Option String)
    (transports : Nat → Transport) (fs : Fs) (selected_items : List String) :
    LookResult :=
  if selected_items = [] then
    ⟨⟨400, none, none, [], none, none, some "No items selected"⟩, fs, 0⟩
  else if (lookResolved catalog fs selected_items).map Prod.fst = [] then
    ⟨⟨400, none, none, [], none, none,
      some "No images available for selected products"⟩, fs, 0⟩
  else if fsExists fs (cachedPathOf selected_items) then
    ⟨⟨200, some true,
      some ("/static/generated/" ++ lookCachedFilename selected_items),
      (lookResolved catalog fs selected_items).map Prod.snd, some true,
      some (generate_combination_id selected_items), none⟩, fs, 0⟩
  else
    match generate_outfit_image ((lookResolved catalog fs selected_items).map Prod.fst)
        apiBase transports (cachedPathOf selected_items) fs with
    | ⟨.ok _, fs1, _⟩ =>
      ⟨⟨200, some true,
        some ("/static/generated/" ++ lookCachedFilename selected_items),
        (lookResolved catalog fs selected_items).map Prod.snd, some false,
        some (generate_combination_id selected_items), none⟩, fs1, 1⟩
    | ⟨.error e, fs1, _⟩ =>
      ⟨⟨500, none, none, [], none, none, some e.message⟩, fs1, 1⟩

/-! ### Order placement (src/app.py, `place_order`) -/

/-- The JSON body (plus HTTP status) returned by `place_order`. -/
structure OrderResponse where
  status : Nat
  success : Bool
  order_id : Option String
  combination_id : Option String
  message : Option String
  error : Option String
  deriving Repr, DecidableEq

/-- Embedding of `place_order` (src/app.py lines 205-241): reject an empty
item list; inside `try`, when the supplied combination id is falsy (`None`
or `""`, Python `if not combination_id`) derive one via
`send_combination`; then `send_order`; any raised exception is caught and
converted into a 200 response with `success = False`, a locally generated
`uuid.uuid4()` order id (`localUuid`), and the error text. -/
def place_order (combChannelOk salesChannelOk : Bool)
    (orderUuid localUuid : String) (combination_id : Option String)
    (items : List Item) : OrderResponse :=
  if items = [] then ⟨400, false, none, none, none, some "No items provided"⟩
  else
    let combRes : Except String String :=
      if combination_id = none ∨ combination_id = some "" then
        FabricClient.send_combination combChannelOk items
      else .ok (combination_id.getD "")
    match combRes with
    | .error e => ⟨200, false, some localUuid, none, none, some e⟩
    | .ok cid =>
      match FabricClient.send_order salesChannelOk orderUuid with
      | .ok oid => ⟨200, true, some oid, some cid,
          some "Order placed successfully", none⟩
      | .error e => ⟨200, false, some localUuid, none, none, some e⟩

/-! ## Helper lemmas -/

theorem charListLe_total : ∀ as bs : List Char,
    charListLe as bs = true ∨ charListLe bs as = true := by
  intro as
  induction as with
  | nil => intro bs; left; rfl
  | cons a as ih =>
    intro bs
    cases bs with
    | nil => right; rfl
    | cons b bs =>
      simp only [charListLe]
      rcases Nat.lt_trichotomy a.toNat b.toNat with h | h | h
      · left; simp [h]
      · have h1 : ¬ a.toNat < b.toNat := by omega
        have h2 : ¬ b.toNat < a.toNat := by omega
        simp [h1, h2]
        exact ih bs
      · right; simp [h]

theorem charListLe_trans : ∀ as bs cs : List Char,
    charListLe as bs = true → charListLe bs cs = true →
    charListLe as cs = true := by
  intro as
  induction as with
  | nil => intro bs cs _ _; rfl
  | cons a as ih =>
    intro bs cs hab hbc
    cases bs with
    | nil => simp [charListLe] at hab
    | cons b bs =>
      cases cs with
      | nil => simp [charListLe] at hbc
      | cons c cs =>
        simp only [charListLe] at hab hbc ⊢
        by_cases h1 : a.toNat < b.toNat
        · by_cases h2 : b.toNat < c.toNat
          · have h3 : a.toNat < c.toNat := by omega
            simp [h3]
          · by_cases h2b : c.toNat < b.toNat
            · simp [h2, h2b] at hbc
            · have h3 : a.toNat < c.toNat := by omega
              simp [h3]
        · by_cases h1b : b.toNat < a.toNat
          · simp [h1, h1b] at hab
          · by_cases h2 : b.toNat < c.toNat
            · have h3 : a.toNat < c.toNat := by omega
              simp [h3]
            · by_cases h2b : c.toNat < b.toNat
              · simp [h2, h2b] at hbc
              · have h3 : ¬ a.toNat < c.toNat := by omega
                have h4 : ¬ c.toNat < a.toNat := by omega
                simp only [h1, h1b, if_false] at hab
                simp only [h2, h2b, if_false] at hbc
                simp only [h3, h4, if_false]
                exact ih bs cs hab hbc

theorem charListLe_antisymm : ∀ as bs : List Char,
    charListLe as bs = true → charListLe bs as = true → as = bs := by
  intro as
  induction as with
  | nil =>
    intro bs hab hba
    cases bs with
    | nil => rfl
    | cons b bs => simp [charListLe] at hba
  | cons a as ih =>
    intro bs hab hba
    cases bs with
    | nil => simp [charListLe] at hab
    | cons b bs =>
      simp only [charListLe] at hab hba
      by_cases h1 : a.toNat < b.toNat
      · have h2 : ¬ b.toNat < a.toNat := by omega
        simp [h1, h2] at hba
      · by_cases h1b : b.toNat < a.toNat
        · simp [h1, h1b] at hab
        · have hn : a.toNat = b.toNat := by omega
          have heq : a = b := Char.eq_of_val_eq (UInt32.toNat.inj hn)
          simp only [h1, h1b, if_false] at hab hba
          rw [heq, ih bs hab hba]

instance : IsTotal String (fun a b => pyStrLe a b = true) :=
  ⟨fun a b => charListLe_total a.data b.data⟩

instance : IsTrans String (fun a b => pyStrLe a b = true) :=
  ⟨fun _ _ _ hab hbc => charListLe_trans _ _ _ hab hbc⟩

instance : IsAntisymm String (fun a b => pyStrLe a b = true) :=
  ⟨fun a b hab hba => by
    cases a; cases b
    exact congrArg String.mk (charListLe_antisymm _ _ hab hba)⟩

/-- Sorting maps permuted lists to the same list. -/
theorem pySorted_congr {l1 l2 : List String} (h : l1.Perm l2) :
    pySorted l1 = pySorted l2 := by
  unfold pySorted
  apply List.eq_of_perm_of_sorted (r := fun a b : String => pyStrLe a b = true)
  · exact (List.perm_insertionSort _ l1).trans
      (h.trans (List.perm_insertionSort _ l2).symm)
  · exact List.sorted_insertionSort _ l1
  · exact List.sorted_insertionSort _ l2

theorem fsExists_fsWrite_mono (fs : Fs) (p q : String) (b : List Nat)
    (h : fsExists fs p = true) : fsExists (fsWrite fs q b) p = true := by
  unfold fsExists fsWrite at *
  cases h2 : (p == q) <;> simp [List.lookup, h2, h]

theorem resolveItem_fsWrite_mono (catalog : Catalog) (fs : Fs) (q : String)
    (b : List Nat) (x : String) (h : resolveItem catalog fs x ≠ []) :
    resolveItem catalog (fsWrite fs q b) x ≠ [] := by
  unfold resolveItem at *
  rw [Ne, List.filterMap_eq_nil_iff] at *
  push_neg at h ⊢
  obtain ⟨cp, hmem, hsome⟩ := h
  refine ⟨cp, hmem, ?_⟩
  cases hfind : cp.2.find? (fun product => product.id = x) with
  | none => simp [hfind] at hsome
  | some product =>
    simp only [hfind] at hsome ⊢
    cases hex : fsExists fs (pathJoin (pathJoin PRODUCTS_FOLDER cp.1) product.image) with
    | false => simp [hex] at hsome
    | true =>
      rw [fsExists_fsWrite_mono fs _ q b hex]
      simp

theorem resolved_fsWrite_mono (catalog : Catalog) (fs : Fs) (q : String)
    (b : List Nat) (items : List String)
    (h : items.flatMap (resolveItem catalog fs) ≠ []) :
    items.flatMap (resolveItem catalog (fsWrite fs q b)) ≠ [] := by
  rw [Ne, List.flatMap_eq_nil_iff] at *
  push_neg at h ⊢
  obtain ⟨x, hmem, hx⟩ := h
  exact ⟨x, hmem, resolveItem_fsWrite_mono catalog fs q b x hx⟩

/-- Exhaustive case analysis of one Image Composition Client call: either it
raises and the filesystem is unchanged or holds a freshly truncated empty
output file, or it succeeds and the output file was truncated then written. -/
theorem generate_outfit_image_cases (image_paths : List String)
    (apiBase : Option String) (transports : Nat → Transport)
    (output_path : String) (fs : Fs) :
    ((∃ e, (generate_outfit_image image_paths apiBase transports output_path fs).result
        = .error e) ∧
      ((generate_outfit_image image_paths apiBase transports output_path fs).fs = fs ∨
       (generate_outfit_image image_paths apiBase transports output_path fs).fs
         = fsWrite fs output_path [])) ∨
    (∃ bytes,
      (generate_outfit_image image_paths apiBase transports output_path fs).result
        = .ok output_path ∧
      (generate_outfit_image image_paths apiBase transports output_path fs).fs
        = fsWrite (fsWrite fs output_path []) output_path bytes) := by
  unfold generate_outfit_image
  repeat' split
  all_goals
    first
    | exact Or.inr ⟨_, rfl, rfl⟩
    | exact Or.inl ⟨⟨_, rfl⟩, Or.inl rfl⟩
    | exact Or.inl ⟨⟨_, rfl⟩, Or.inr rfl⟩

/-! ## Claim theorems -/

/-- C1: `generate_combination_id` sorts the identifiers, joins them with "|",
takes the SHA-256 hex digest and formats its first 32 hex characters as
8-4-4-4-12 (this is its definition above); consequently, for every non-empty
list and every permutation of it, the returned Combination Identifier is
identical (order independence). -/
theorem generate_combination_id_order_independent (l1 l2 : List String)
    (hne : l1 ≠ []) (hperm : l1.Perm l2) :
    generate_combination_id l1 = generate_combination_id l2 := by
  have hne2 := hne
  unfold generate_combination_id
  rw [pySorted_congr hperm]

theorem generate_combination_id_order_independent_witness :
    (["shoe-1", "jacket-2"] : List String) ≠ [] ∧
    List.Perm ["shoe-1", "jacket-2"] ["jacket-2", "shoe-1"] ∧
    generate_combination_id ["shoe-1", "jacket-2"]
      = generate_combination_id ["jacket-2", "shoe-1"] :=
  ⟨by decide, by decide,
   generate_combination_id_order_independent _ _ (by decide) (by decide)⟩

/-- C2: the Event Publisher's identity derivation agrees with the cache's
Identity Function applied to the items' "id" fields; and `place_order`
called without a combination id derives, via `send_combination`, exactly the
identifier a prior `send_combination` for the same item set returns. -/
theorem fabric_and_app_identity_agree (items : List Item)
    (orderUuid localUuid : String) (hne : items ≠ []) :
    FabricClient.generate_combination_id items
      = generate_combination_id (items.map itemGetId) ∧
    FabricClient.send_combination true items
      = .ok (FabricClient.generate_combination_id items) ∧
    (place_order true true orderUuid localUuid none items).combination_id
      = some (FabricClient.generate_combination_id items) := by
  refine ⟨rfl, rfl, ?_⟩
  simp [place_order, hne, FabricClient.send_combination, FabricClient.send_order]

theorem fabric_and_app_identity_agree_witness :
    FabricClient.generate_combination_id
        [⟨some "shoe-1", some "Sneaker", some 10, some "white"⟩]
      = generate_combination_id
          (([⟨some "shoe-1", some "Sneaker", some 10, some "white"⟩] : List Item).map itemGetId) ∧
    (place_order true true "uuid-order" "uuid-local" none
        [⟨some "shoe-1", some "Sneaker", some 10, some "white"⟩]).combination_id
      = some (FabricClient.generate_combination_id
          [⟨some "shoe-1", some "Sneaker", some 10, some "white"⟩]) :=
  ⟨(fabric_and_app_identity_agree _ "uuid-order" "uuid-local" (by decide)).1,
   (fabric_and_app_identity_agree _ "uuid-order" "uuid-local" (by decide)).2.2⟩

set_option maxRecDepth 40000 in
/-- C7: duplicate identifiers are not deduplicated: for every identifier `x`
the sorted concatenation for `[x, x]` differs from the one for `[x]` (so the
hash inputs differ), and at the concrete identifier "a" the two Combination
Identifiers differ. -/
theorem duplicate_ids_not_deduplicated :
    (∀ x : String,
      String.intercalate "|" (pySorted [x, x])
        ≠ String.intercalate "|" (pySorted [x])) ∧
    generate_combination_id ["a", "a"] ≠ generate_combination_id ["a"] := by
  constructor
  · intro x
    have h2 : pySorted [x, x] = [x, x] := by
      have hp := List.perm_insertionSort
        (fun a b : String => pyStrLe a b = true) [x, x]
      exact List.perm_replicate (n := 2).mp hp
    have h1 : pySorted [x] = [x] := rfl
    rw [h2, h1]
    show x ++ "|" ++ x ≠ String.intercalate "|" [x]
    have h3 : String.intercalate "|" [x] = x := rfl
    rw [h3]
    intro heq
    have hlen := congrArg String.length heq
    rw [String.length_append, String.length_append] at hlen
    have hone : ("|" : String).length = 1 := rfl
    omega
  · decide

/-- C3 counterexample: with the endpoint configured, a nonempty image list
and every response an HTTP 503, `generate_outfit_image` performs exactly one
attempt — not the three attempts with retry-on-503 that the claim states —
and surfaces the HTTP error after that single attempt. -/
theorem retry_policy_counterexample :
    (generate_outfit_image ["p.jpg"] (some "https://endpoint")
      (fun _ => .response ⟨503, []⟩) "out.jpeg" []).attempts = 1 ∧
    ¬ (generate_outfit_image ["p.jpg"] (some "https://endpoint")
      (fun _ => .response ⟨503, []⟩) "out.jpeg" []).attempts = 3 ∧
    (generate_outfit_image ["p.jpg"] (some "https://endpoint")
      (fun _ => .response ⟨503, []⟩) "out.jpeg" []).result
      = .error (.httpError 503) :=
  ⟨rfl, by decide, rfl⟩

/-- C3 amended: `generate_outfit_image` performs exactly ONE outbound
attempt, with no retry and no backoff: with a nonempty image list and a
configured endpoint the attempt count is 1, and any response with status
≥ 400 — rate-limiting, 5xx and other 4xx alike — surfaces an error
immediately after that single attempt. -/
theorem single_attempt_no_retry (image_paths : List String) (apiBase : String)
    (transports : Nat → Transport) (output_path : String) (fs : Fs)
    (hne : image_paths ≠ []) :
    (generate_outfit_image image_paths (some apiBase) transports
      output_path fs).attempts = 1 ∧
    (∀ r : ApiResponse, transports 0 = .response r → 400 ≤ r.status →
      (generate_outfit_image image_paths (some apiBase) transports
        output_path fs).result = .error (.httpError r.status)) := by
  constructor
  · unfold generate_outfit_image
    rw [if_neg hne]
    repeat' split
    all_goals simp_all
  · intro r h0 hs
    unfold generate_outfit_image
    rw [if_neg hne]
    repeat' split
    all_goals simp_all

theorem single_attempt_no_retry_witness :
    (["p.jpg"] : List String) ≠ [] ∧
    (generate_outfit_image ["p.jpg"] (some "https://endpoint")
      (fun _ => .response ⟨503, []⟩) "out.jpeg" []).attempts = 1 ∧
    (generate_outfit_image ["p.jpg"] (some "https://endpoint")
      (fun _ => .response ⟨503, []⟩) "out.jpeg" []).result
      = .error (.httpError 503) :=
  ⟨by decide,
   (single_attempt_no_retry ["p.jpg"] "https://endpoint"
     (fun _ => .response ⟨503, []⟩) "out.jpeg" [] (by decide)).1,
   (single_attempt_no_retry ["p.jpg"] "https://endpoint"
     (fun _ => .response ⟨503, []⟩) "out.jpeg" [] (by decide)).2
     ⟨503, []⟩ rfl (by decide)⟩

/-- C6: on an HTTP-success response, an empty `data` array, or a first data
element whose `b64_json` is absent (or empty, which Python truthiness also
treats as missing), raises `ValueError("No image in response")` rather than
returning a successful empty result; on a well-formed response the client
base64-decodes `data[0].b64_json` and writes exactly those bytes to the
output path. -/
theorem empty_payload_rejected (image_paths : List String) (apiBase : String)
    (transports : Nat → Transport) (output_path : String) (fs : Fs)
    (r : ApiResponse) (hne : image_paths ≠ [])
    (h0 : transports 0 = .response r) (hs : r.status < 400) :
    (r.data = [] →
      generate_outfit_image image_paths (some apiBase) transports output_path fs
        = ⟨.error .noImageInResponse, fs, 1⟩) ∧
    (∀ item rest, r.data = item :: rest →
      item.b64_json = none ∨ item.b64_json = some "" →
      generate_outfit_image image_paths (some apiBase) transports output_path fs
        = ⟨.error .noImageInResponse, fs, 1⟩) ∧
    (∀ b64 bytes, r.data.head?.bind RespItem.b64_json = some b64 → b64 ≠ "" →
      b64decode b64 = some bytes →
      (generate_outfit_image image_paths (some apiBase) transports
        output_path fs).result = .ok output_path ∧
      fsRead (generate_outfit_image image_paths (some apiBase) transports
        output_path fs).fs output_path = some bytes) := by
  refine ⟨?_, ?_, ?_⟩
  · intro hd
    unfold generate_outfit_image
    rw [if_neg hne]
    repeat' split
    all_goals simp_all
    all_goals omega
  · intro item rest hd hb
    unfold generate_outfit_image
    rw [if_neg hne]
    repeat' split
    all_goals cases hb <;> simp_all
    all_goals omega
  · intro b64 bytes hb hbne hdec
    unfold generate_outfit_image
    rw [if_neg hne]
    constructor
    · repeat' split
      all_goals simp_all
      all_goals omega
    · repeat' split
      all_goals simp_all [fsRead, fsWrite]
      all_goals omega

theorem empty_payload_rejected_witness :
    (generate_outfit_image ["p.jpg"] (some "https://endpoint")
      (fun _ => .response ⟨200, []⟩) "out.jpeg" []
      = ⟨.error .noImageInResponse, [], 1⟩) ∧
    (generate_outfit_image ["p.jpg"] (some "https://endpoint")
      (fun _ => .response ⟨200, [⟨some "aGk="⟩]⟩) "out.jpeg" []).result
      = .ok "out.jpeg" ∧
    fsRead (generate_outfit_image ["p.jpg"] (some "https://endpoint")
      (fun _ => .response ⟨200, [⟨some "aGk="⟩]⟩) "out.jpeg" []).fs "out.jpeg"
      = some [104, 105] :=
  ⟨(empty_payload_rejected ["p.jpg"] "https://endpoint"
      (fun _ => .response ⟨200, []⟩) "out.jpeg" [] ⟨200, []⟩
      (by decide) rfl (by decide)).1 rfl,
   (empty_payload_rejected ["p.jpg"] "https://endpoint"
      (fun _ => .response ⟨200, [⟨some "aGk="⟩]⟩) "out.jpeg" []
      ⟨200, [⟨some "aGk="⟩]⟩ (by decide) rfl (by decide)).2.2
      "aGk=" [104, 105] rfl (by decide) (by decide)⟩

theorem fsExists_fsWrite_self (fs : Fs) (p : String) (b : List Nat) :
    fsExists (fsWrite fs p b) p = true := by
  simp [fsExists, fsWrite, List.lookup]

theorem lookResolved_fsWrite_mono (catalog : Catalog) (fs : Fs) (q : String)
    (b : List Nat) (items : List String)
    (h : (lookResolved catalog fs items).map Prod.fst ≠ []) :
    (lookResolved catalog (fsWrite fs q b) items).map Prod.fst ≠ [] := by
  rw [Ne, List.map_eq_nil_iff] at *
  exact resolved_fsWrite_mono catalog fs q b items h

/-- Evaluation of `generate_look` on a cache hit: resolvable selection and
existing artifact give the cached response with no client call. -/
theorem generate_look_hit (catalog : Catalog) (apiBase : Option String)
    (transports : Nat → Transport) (fs : Fs) (items : List String)
    (hne : items ≠ [])
    (hres : (lookResolved catalog fs items).map Prod.fst ≠ [])
    (hcache : fsExists fs (cachedPathOf items) = true) :
    generate_look catalog apiBase transports fs items
      = ⟨⟨200, some true,
          some ("/static/generated/" ++ lookCachedFilename items),
          (lookResolved catalog fs items).map Prod.snd, some true,
          some (generate_combination_id items), none⟩, fs, 0⟩ := by
  unfold generate_look
  rw [if_neg hne, if_neg hres, if_pos hcache]

/-- Evaluation of `generate_look` on a cache miss whose generation call
succeeds. -/
theorem generate_look_miss_ok (catalog : Catalog) (apiBase : Option String)
    (transports : Nat → Transport) (fs : Fs) (items : List String) (s : String)
    (hne : items ≠ [])
    (hres : (lookResolved catalog fs items).map Prod.fst ≠ [])
    (hcache : fsExists fs (cachedPathOf items) = false)
    (hok : (generate_outfit_image ((lookResolved catalog fs items).map Prod.fst)
        apiBase transports (cachedPathOf items) fs).result = .ok s) :
    generate_look catalog apiBase transports fs items
      = ⟨⟨200, some true,
          some ("/static/generated/" ++ lookCachedFilename items),
          (lookResolved catalog fs items).map Prod.snd, some false,
          some (generate_combination_id items), none⟩,
        (generate_outfit_image ((lookResolved catalog fs items).map Prod.fst)
          apiBase transports (cachedPathOf items) fs).fs, 1⟩ := by
  unfold generate_look
  rw [if_neg hne, if_neg hres, if_neg (by simp [hcache])]
  cases hg : generate_outfit_image ((lookResolved catalog fs items).map Prod.fst)
      apiBase transports (cachedPathOf items) fs with
  | mk res gfs att =>
    cases res with
    | ok t => rfl
    | error e => rw [hg] at hok; exact absurd hok (by simp)

/-- Evaluation of `generate_look` on a cache miss whose generation call
raises: the error is converted into a 500 response. -/
theorem generate_look_miss_error (catalog : Catalog) (apiBase : Option String)
    (transports : Nat → Transport) (fs : Fs) (items : List String) (e : GenError)
    (hne : items ≠ [])
    (hres : (lookResolved catalog fs items).map Prod.fst ≠ [])
    (hcache : fsExists fs (cachedPathOf items) = false)
    (herr : (generate_outfit_image ((lookResolved catalog fs items).map Prod.fst)
        apiBase transports (cachedPathOf items) fs).result = .error e) :
    generate_look catalog apiBase transports fs items
      = ⟨⟨500, none, none, [], none, none, some e.message⟩,
        (generate_outfit_image ((lookResolved catalog fs items).map Prod.fst)
          apiBase transports (cachedPathOf items) fs).fs, 1⟩ := by
  unfold generate_look
  rw [if_neg hne, if_neg hres, if_neg (by simp [hcache])]
  cases hg : generate_outfit_image ((lookResolved catalog fs items).map Prod.fst)
      apiBase transports (cachedPathOf items) fs with
  | mk res gfs att =>
    cases res with
    | error e2 =>
      rw [hg] at herr
      simp only at herr
      rw [(by simpa using herr : e2 = e)]
    | ok t => rw [hg] at herr; exact absurd herr (by simp)

/-- C4 counterexample: a selection whose identifiers resolve to no existing
image file is rejected with HTTP 400 even when its artifact already exists,
so the operation does NOT return `wasCached = true` for every selection
whose artifact exists. -/
theorem cached_but_unresolvable_counterexample :
    fsExists [(cachedPathOf ["x"], [1])] (cachedPathOf ["x"]) = true ∧
    (generate_look [] none (fun _ => .failure "down")
      [(cachedPathOf ["x"], [1])] ["x"]).resp.cached ≠ some true ∧
    (generate_look [] none (fun _ => .failure "down")
      [(cachedPathOf ["x"], [1])] ["x"]).resp.status = 400 ∧
    (generate_look [] none (fun _ => .failure "down")
      [(cachedPathOf ["x"], [1])] ["x"]).clientCalls = 0 := by
  refine ⟨by simp [fsExists, List.lookup], by decide, rfl, rfl⟩

/-- C4 amended: for every selection that is non-empty and resolves to at
least one existing image file: (1) when the artifact for its Combination
Identifier already exists, `generate_look` returns `wasCached = true`, does
not invoke the Image Composition Client and leaves the filesystem
unchanged; (2) when a first call reports success, a second call with the
same selection returns `wasCached = true`, does not invoke the client, and
the two calls together invoke it at most once. -/
theorem cache_hit_and_idempotence (catalog : Catalog)
    (apiBase1 apiBase2 : Option String) (tr1 tr2 : Nat → Transport)
    (fs : Fs) (items : List String) (hne : items ≠ [])
    (hres : (lookResolved catalog fs items).map Prod.fst ≠ []) :
    (fsExists fs (cachedPathOf items) = true →
      (generate_look catalog apiBase1 tr1 fs items).resp.cached = some true ∧
      (generate_look catalog apiBase1 tr1 fs items).clientCalls = 0 ∧
      (generate_look catalog apiBase1 tr1 fs items).fs = fs) ∧
    ((generate_look catalog apiBase1 tr1 fs items).resp.success = some true →
      (generate_look catalog apiBase2 tr2
        (generate_look catalog apiBase1 tr1 fs items).fs items).resp.cached
        = some true ∧
      (generate_look catalog apiBase2 tr2
        (generate_look catalog apiBase1 tr1 fs items).fs items).clientCalls = 0 ∧
      (generate_look catalog apiBase1 tr1 fs items).clientCalls +
        (generate_look catalog apiBase2 tr2
          (generate_look catalog apiBase1 tr1 fs items).fs items).clientCalls
        ≤ 1) := by
  constructor
  · intro hcache
    rw [generate_look_hit catalog apiBase1 tr1 fs items hne hres hcache]
    exact ⟨rfl, rfl, rfl⟩
  · intro hsucc
    by_cases hcache : fsExists fs (cachedPathOf items) = true
    · rw [generate_look_hit catalog apiBase1 tr1 fs items hne hres hcache]
      dsimp only
      rw [generate_look_hit catalog apiBase2 tr2 fs items hne hres hcache]
      exact ⟨rfl, rfl, by simp⟩
    · have hcf : fsExists fs (cachedPathOf items) = false := by
        simpa using hcache
      rcases generate_outfit_image_cases ((lookResolved catalog fs items).map Prod.fst)
          apiBase1 tr1 (cachedPathOf items) fs with ⟨⟨e, he⟩, -⟩ | ⟨bytes, hok, hfsw⟩
      · rw [generate_look_miss_error catalog apiBase1 tr1 fs items e
            hne hres hcf he] at hsucc
        exact absurd hsucc (by simp)
      · rw [generate_look_miss_ok catalog apiBase1 tr1 fs items
            (cachedPathOf items) hne hres hcf hok]
        dsimp only
        rw [hfsw]
        have hres2 : (lookResolved catalog
            (fsWrite (fsWrite fs (cachedPathOf items) []) (cachedPathOf items) bytes)
            items).map Prod.fst ≠ [] :=
          lookResolved_fsWrite_mono _ _ _ _ _
            (lookResolved_fsWrite_mono _ _ _ _ _ hres)
        have hcache2 : fsExists
            (fsWrite (fsWrite fs (cachedPathOf items) []) (cachedPathOf items) bytes)
            (cachedPathOf items) = true :=
          fsExists_fsWrite_self _ _ _
        rw [generate_look_hit catalog apiBase2 tr2 _ items hne hres2 hcache2]
        exact ⟨rfl, rfl, by simp⟩

theorem cache_hit_and_idempotence_witness :
    (["x"] : List String) ≠ [] ∧
    (generate_look [("c", [⟨"x", "img.jpg"⟩])] none (fun _ => .failure "down")
      [(cachedPathOf ["x"], [7]), ("./static/products/c/img.jpg", [9])]
      ["x"]).resp.cached = some true ∧
    (generate_look [("c", [⟨"x", "img.jpg"⟩])] none (fun _ => .failure "down")
      [(cachedPathOf ["x"], [7]), ("./static/products/c/img.jpg", [9])]
      ["x"]).clientCalls = 0 :=
  ⟨by decide,
   ((cache_hit_and_idempotence [("c", [⟨"x", "img.jpg"⟩])] none none
      (fun _ => .failure "down") (fun _ => .failure "down")
      [(cachedPathOf ["x"], [7]), ("./static/products/c/img.jpg", [9])]
      ["x"] (by decide) (by decide)).1 (by simp [fsExists, List.lookup])).1,
   ((cache_hit_and_idempotence [("c", [⟨"x", "img.jpg"⟩])] none none
      (fun _ => .failure "down") (fun _ => .failure "down")
      [(cachedPathOf ["x"], [7]), ("./static/products/c/img.jpg", [9])]
      ["x"] (by decide) (by decide)).1 (by simp [fsExists, List.lookup])).2.1⟩

/-- C5 (code bug): on a transport failure or an HTTP error the filesystem is
indeed unchanged, but an HTTP-success response whose `b64_json` payload is
present yet not valid base64 (here "a", whose length is not a multiple of 4,
so Python `base64.b64decode` raises `binascii.Error`) leaves a corrupt EMPTY
artifact file at the artifact path, because `open(output_path, "wb")`
truncates the file before `base64.b64decode` is evaluated.  The failure is
propagated, but the filesystem cache state is NOT unchanged. -/
theorem error_path_creates_empty_artifact :
    (generate_outfit_image ["p.jpg"] (some "https://endpoint")
      (fun _ => .failure "connection reset")
      "./static/generated/look_art.jpeg" []).fs = [] ∧
    (generate_outfit_image ["p.jpg"] (some "https://endpoint")
      (fun _ => .response ⟨503, []⟩)
      "./static/generated/look_art.jpeg" []).fs = [] ∧
    (generate_outfit_image ["p.jpg"] (some "https://endpoint")
      (fun _ => .response ⟨200, [⟨some "a"⟩]⟩)
      "./static/generated/look_art.jpeg" []).result = .error .base64Error ∧
    (generate_outfit_image ["p.jpg"] (some "https://endpoint")
      (fun _ => .response ⟨200, [⟨some "a"⟩]⟩)
      "./static/generated/look_art.jpeg" []).fs
      = [("./static/generated/look_art.jpeg", [])] ∧
    fsExists (generate_outfit_image ["p.jpg"] (some "https://endpoint")
      (fun _ => .response ⟨200, [⟨some "a"⟩]⟩)
      "./static/generated/look_art.jpeg" []).fs
      "./static/generated/look_art.jpeg" = true :=
  ⟨rfl, rfl, rfl, rfl, rfl⟩

/-- C8: an empty item selection is rejected with HTTP 400 ("No items
selected") before the Combination Identifier is derived or anything else
happens, with no client call and an unchanged filesystem; a non-empty
selection in which zero identifiers resolve to an existing image file is
rejected with HTTP 400 ("No images available for selected products"),
likewise with no client call and an unchanged filesystem. -/
theorem rejects_empty_and_unresolvable (catalog : Catalog)
    (apiBase : Option String) (transports : Nat → Transport) (fs : Fs)
    (items : List String) :
    (items = [] →
      generate_look catalog apiBase transports fs items
        = ⟨⟨400, none, none, [], none, none, some "No items selected"⟩,
            fs, 0⟩) ∧
    (items ≠ [] → lookResolved catalog fs items = [] →
      generate_look catalog apiBase transports fs items
        = ⟨⟨400, none, none, [], none, none,
            some "No images available for selected products"⟩, fs, 0⟩) := by
  constructor
  · intro h
    unfold generate_look
    rw [if_pos h]
  · intro hne hres
    unfold generate_look
    rw [if_neg hne, hres]
    simp

theorem rejects_empty_and_unresolvable_witness :
    (generate_look [] none (fun _ => .failure "down") [] []
      = ⟨⟨400, none, none, [], none, none, some "No items selected"⟩,
          [], 0⟩) ∧
    (generate_look [] none (fun _ => .failure "down") [] ["x"]
      = ⟨⟨400, none, none, [], none, none,
          some "No images available for selected products"⟩, [], 0⟩) :=
  ⟨(rejects_empty_and_unresolvable [] none (fun _ => .failure "down") [] []).1
     rfl,
   (rejects_empty_and_unresolvable [] none (fun _ => .failure "down") [] ["x"]).2
     (by decide) rfl⟩

/-- C9: for a non-empty item list `place_order` always answers HTTP 200
(exceptions from publishing never escape the boundary); when the sales
channel is down it returns `success = false`, an error field, and the
locally generated `uuid.uuid4()` order id; and in every case the order id is
one of the two locally generated random uuids — never derived from the
items: replacing the item list by any other non-empty item list leaves the
order id unchanged. -/
theorem place_order_never_raises (combOk salesOk : Bool)
    (orderUuid localUuid : String) (cid : Option String) (items : List Item)
    (hne : items ≠ []) :
    (place_order combOk salesOk orderUuid localUuid cid items).status = 200 ∧
    (salesOk = false →
      (place_order combOk salesOk orderUuid localUuid cid items).success
        = false ∧
      (place_order combOk salesOk orderUuid localUuid cid items).order_id
        = some localUuid ∧
      (place_order combOk salesOk orderUuid localUuid cid items).error.isSome
        = true) ∧
    ((place_order combOk salesOk orderUuid localUuid cid items).order_id
        = some orderUuid ∨
     (place_order combOk salesOk orderUuid localUuid cid items).order_id
        = some localUuid) ∧
    (∀ items2 : List Item, items2 ≠ [] →
      (place_order combOk salesOk orderUuid localUuid cid items).order_id
        = (place_order combOk salesOk orderUuid localUuid cid items2).order_id) := by
  refine ⟨?_, ?_, ?_, ?_⟩
  · by_cases hc : cid = none ∨ cid = some ""
    all_goals cases combOk <;> cases salesOk <;>
      simp [place_order, FabricClient.send_combination,
        FabricClient.send_order, hne, hc]
  · intro hs
    subst hs
    by_cases hc : cid = none ∨ cid = some ""
    all_goals cases combOk <;>
      simp [place_order, FabricClient.send_combination,
        FabricClient.send_order, hne, hc]
  · by_cases hc : cid = none ∨ cid = some ""
    all_goals cases combOk <;> cases salesOk <;>
      simp [place_order, FabricClient.send_combination,
        FabricClient.send_order, hne, hc]
  · intro items2 hne2
    by_cases hc : cid = none ∨ cid = some ""
    all_goals cases combOk <;> cases salesOk <;>
      simp [place_order, FabricClient.send_combination,
        FabricClient.send_order, hne, hne2, hc]

theorem place_order_never_raises_witness :
    (place_order true false "uuid-o" "uuid-l" none
      [⟨some "shoe-1", none, none, none⟩]).status = 200 ∧
    (place_order true false "uuid-o" "uuid-l" none
      [⟨some "shoe-1", none, none, none⟩]).success = false ∧
    (place_order true false "uuid-o" "uuid-l" none
      [⟨some "shoe-1", none, none, none⟩]).order_id = some "uuid-l" ∧
    (place_order true false "uuid-o" "uuid-l" none
      [⟨some "shoe-1", none, none, none⟩]).order_id
      = (place_order true false "uuid-o" "uuid-l" none
          [⟨some "jacket-9", some "other", some 3, some "red"⟩]).order_id :=
  ⟨(place_order_never_raises true false "uuid-o" "uuid-l" none
      [⟨some "shoe-1", none, none, none⟩] (by decide)).1,
   ((place_order_never_raises true false "uuid-o" "uuid-l" none
      [⟨some "shoe-1", none, none, none⟩] (by decide)).2.1 rfl).1,
   ((place_order_never_raises true false "uuid-o" "uuid-l" none
      [⟨some "shoe-1", none, none, none⟩] (by decide)).2.1 rfl).2.1,
   (place_order_never_raises true false "uuid-o" "uuid-l" none
      [⟨some "shoe-1", none, none, none⟩] (by decide)).2.2.2
      [⟨some "jacket-9", some "other", some 3, some "red"⟩] (by decide)⟩

/-- C10: the Event Publisher's Combination Identifier depends only on the
items' "id" fields: two item lists whose "id" projections agree yield the
same identifier regardless of every other field, and an item with no "id"
field contributes the empty string. -/
theorem fabric_id_depends_only_on_ids :
    (∀ items1 items2 : List Item,
      items1.map itemGetId = items2.map itemGetId →
      FabricClient.generate_combination_id items1
        = FabricClient.generate_combination_id items2) ∧
    (∀ (name : Option String) (price : Option Nat) (color : Option String),
      itemGetId ⟨none, name, price, color⟩ = "") := by
  constructor
  · intro items1 items2 h
    unfold FabricClient.generate_combination_id
    have h2 : items1.map (fun item => item.id.getD "")
        = items2.map (fun item => item.id.getD "") := h
    rw [h2]
  · intro name price color
    rfl

theorem fabric_id_depends_only_on_ids_witness :
    FabricClient.generate_combination_id
        [⟨some "shoe-1", some "Name A", some 10, some "red"⟩]
      = FabricClient.generate_combination_id
        [⟨some "shoe-1", some "Name B", some 999, some "blue"⟩] :=
  fabric_id_depends_only_on_ids.1
    [⟨some "shoe-1", some "Name A", some 10, some "red"⟩]
    [⟨some "shoe-1", some "Name B", some 999, some "blue"⟩] (by decide)

theorem duplicate_ids_not_deduplicated_witness :
    String.intercalate "|" (pySorted ["a", "a"])
      ≠ String.intercalate "|" (pySorted ["a"]) :=
  duplicate_ids_not_deduplicated.1 "a"
